import Mathlib

/-!
Shallow embedding of `projects/modules/http/server/http_server_manager.cpp`
(OvenMediaEngine): the HTTP/HTTPS listener registry.

The registry keeps a map from socket address to a started server handle and
arbitrates creation / reuse / release requests.  External collaborators
(physical ports, TLS certificate attachment, address resolution, the module
configuration) are modelled as oracles bundled in `Env`.  Each operation
returns its result, the updated registry state, and the list of observable
events it emitted (`Start`/`Stop` calls, warnings, errors), mirroring the
log statements and collaborator calls of the C++ source.
-/

namespace HttpSvr

/-- `ov::SocketAddress`: an opaque comparable key (host string + port). -/
structure SocketAddress where
  host : String
  port : Nat
deriving DecidableEq, Repr

/-- Certificates are opaque credentials; only their identity matters here. -/
abbrev Cert := Nat

/-- A listener handle (`HttpServer` / `HttpsServer`).  `isTLS` models the
`dynamic_pointer_cast<HttpsServer>` discrimination; `id` models shared-pointer
identity; `running` models whether the underlying physical port is active. -/
structure Server where
  id : Nat
  isTLS : Bool
  instanceName : String
  boundAddr : SocketAddress
  workerCount : Int
  http2Enabled : Bool
  certs : List Cert
  running : Bool
deriving DecidableEq, Repr

/-- Observable events: collaborator invocations and log lines of the source. -/
inductive Event where
  | startCall (address : SocketAddress) (workerCount : Int) (http2 : Bool)
  | stopCall (address : SocketAddress)
  | warnWorkerMismatch (existing requested : Int)
  | warnHttp2Down (address : SocketAddress)
  | warnHttp2Up (address : SocketAddress)
  | errTypeConflict (address : SocketAddress)
  | errStartFailure (address : SocketAddress)
  | errResolve (host : String)
  | errCreateFailed (address : SocketAddress)
  | errCertAttach (address : SocketAddress)
  | callbackCall (address : SocketAddress) (serverId : Nat)
deriving DecidableEq, Repr

/-- Collaborator oracles consumed by the registry: module configuration
(`cfg::ConfigManager ... GetHttp2().IsEnabled()`), physical-port start/stop
outcomes, certificate attach/detach outcomes, and `ov::SocketAddress::Create`
address resolution (`none` models the thrown `ov::Error`). -/
structure Env where
  http2Enabled : Bool
  startOk : SocketAddress → Bool
  stopOk : SocketAddress → Bool
  appendCertOk : SocketAddress → Cert → Bool
  removeCertOk : SocketAddress → Cert → Bool
  resolve : String → Nat → Option (List SocketAddress)
  defaultWorkerCount : Int

/-- `HttpServerManager`: the `_http_servers` map (association list, keys
unique) plus a fresh-identity counter for newly allocated handles. -/
structure ManagerState where
  servers : List (SocketAddress × Server)
  nextId : Nat
deriving DecidableEq, Repr

/-- Result of one registry operation: the returned value, the registry state
after the call, and the events the call emitted, in order. -/
structure OpResult (α : Type) where
  res : α
  state : ManagerState
  events : List Event
deriving DecidableEq, Repr

/-- `_http_servers.find(address)`: first entry whose key is `address`. -/
def findServer (servers : List (SocketAddress × Server)) (address : SocketAddress) :
    Option Server :=
  match servers with
  | [] => none
  | p :: rest => if p.1 = address then some p.2 else findServer rest address

/-- Update every occurrence of the object identified by `sid` (shared-pointer
aliasing: mutating through a handle is visible through the map entry). -/
def updateById (servers : List (SocketAddress × Server)) (sid : Nat) (srv : Server) :
    List (SocketAddress × Server) :=
  servers.map fun p => if p.2.id = sid then (p.1, srv) else p

/-- Modelled from the spec: `HTTP_SERVER_USE_DEFAULT_COUNT` (defined in
`http_server.h`, not part of the given source) — the sentinel worker count
meaning "use the collaborator default". -/
def HTTP_SERVER_USE_DEFAULT_COUNT : Int := 0

/-- Modelled from the spec: a physical port started with the sentinel worker
count uses the collaborator default; otherwise the requested count. -/
def resolveWorkerCount (env : Env) (worker_count : Int) : Int :=
  if worker_count = HTTP_SERVER_USE_DEFAULT_COUNT then env.defaultWorkerCount
  else worker_count

/-- Modelled from the spec: `HttpServer::GetPhysicalPort` (not part of the
given source) — present while the listener runs; we retain only its
`GetWorkerCount()` attribute. -/
def GetPhysicalPort (s : Server) : Option Int :=
  if s.running then some s.workerCount else none

/-- `Server.Stop` side effect on the handle (the physical port is closed). -/
def stopServer (s : Server) : Server :=
  { s with running := false }

/-- `HttpServerManager::CreateHttpServer` (plain listener, lines 19–78).
On a map hit: a TLS entry is a type conflict (null); a plain entry is reused,
warning when an explicitly requested worker count differs from the physical
port's.  On a miss: start a new plain listener; insert on success. -/
def CreateHttpServer (env : Env) (st : ManagerState) (instance_name : String)
    (address : SocketAddress) (worker_count : Int) : OpResult (Option Server) :=
  let http2_enabled := env.http2Enabled
  match findServer st.servers address with
  | some existing =>
    if existing.isTLS then
      ⟨none, st, [Event.errTypeConflict address]⟩
    else
      let events :=
        if worker_count ≠ HTTP_SERVER_USE_DEFAULT_COUNT then
          match GetPhysicalPort existing with
          | some pwc =>
            if pwc ≠ worker_count then [Event.warnWorkerMismatch pwc worker_count]
            else []
          | none => []
        else []
      ⟨some existing, st, events⟩
  | none =>
    let srv : Server :=
      { id := st.nextId, isTLS := false, instanceName := instance_name,
        boundAddr := address, workerCount := resolveWorkerCount env worker_count,
        http2Enabled := http2_enabled, certs := [], running := true }
    if env.startOk address then
      ⟨some srv,
        { servers := st.servers ++ [(address, srv)], nextId := st.nextId + 1 },
        [Event.startCall address worker_count http2_enabled]⟩
    else
      ⟨none, st,
        [Event.startCall address worker_count http2_enabled,
         Event.errStartFailure address]⟩

/-- `HttpServerManager::CreateHttpsServer` (TLS listener, lines 80–132).
The HTTP/2 flag starts from the module configuration and is forced to false
when `disable_http2_force`.  On a hit: a plain entry is a type conflict
(null); a TLS entry is reused, warning only on an HTTP/2 flag mismatch.
On a miss: start a new TLS listener; insert on success. -/
def CreateHttpsServer (env : Env) (st : ManagerState) (instance_name : String)
    (address : SocketAddress) (disable_http2_force : Bool) (worker_count : Int) :
    OpResult (Option Server) :=
  let http2_enabled := env.http2Enabled
  let http2_enabled := if disable_http2_force = true then false else http2_enabled
  match findServer st.servers address with
  | some existing =>
    if existing.isTLS = false then
      ⟨none, st, [Event.errTypeConflict address]⟩
    else
      let events :=
        if existing.http2Enabled ∧ http2_enabled = false then
          [Event.warnHttp2Down address]
        else if existing.http2Enabled = false ∧ http2_enabled then
          [Event.warnHttp2Up address]
        else []
      ⟨some existing, st, events⟩
  | none =>
    let srv : Server :=
      { id := st.nextId, isTLS := true, instanceName := instance_name,
        boundAddr := address, workerCount := resolveWorkerCount env worker_count,
        http2Enabled := http2_enabled, certs := [], running := true }
    if env.startOk address then
      ⟨some srv,
        { servers := st.servers ++ [(address, srv)], nextId := st.nextId + 1 },
        [Event.startCall address worker_count http2_enabled]⟩
    else
      ⟨none, st,
        [Event.startCall address worker_count http2_enabled,
         Event.errStartFailure address]⟩

/-- Certificate-bearing `CreateHttpsServer` overload (lines 172–190): create
or reuse the TLS listener, then attach the certificate directly on the
returned handle; on attach failure return null without undoing creation. -/
def CreateHttpsServerWithCert (env : Env) (st : ManagerState)
    (instance_name : String) (address : SocketAddress) (cert : Cert)
    (disable_http2_force : Bool) (worker_count : Int) : OpResult (Option Server) :=
  let r := CreateHttpsServer env st instance_name address disable_http2_force worker_count
  match r.res with
  | none => ⟨none, r.state, r.events⟩
  | some srv =>
    if env.appendCertOk srv.boundAddr cert then
      let srv' := { srv with certs := srv.certs ++ [cert] }
      ⟨some srv', { r.state with servers := updateById r.state.servers srv.id srv' },
        r.events⟩
    else
      ⟨none, r.state, r.events ++ [Event.errCertAttach srv.boundAddr]⟩

/-- `HttpServerManager::ReleaseServer` (lines 280–289): null handle returns
false; otherwise `Stop()` the handle and forward its result.  The registry
map entry is NOT removed (the TODO in the source). -/
def ReleaseServer (env : Env) (st : ManagerState) (handle : Option Server) :
    OpResult Bool :=
  match handle with
  | none => ⟨false, st, []⟩
  | some s =>
    ⟨env.stopOk s.boundAddr,
      { st with servers := updateById st.servers s.id (stopServer s) },
      [Event.stopCall s.boundAddr]⟩

/-- Modelled from the spec: `HttpServerManager::ReleaseServers` (declared in
the header, not part of the given source) — releases every handle of the
list, each via `ReleaseServer`. -/
def ReleaseServers (env : Env) (st : ManagerState) (list : List Server) :
    OpResult Bool :=
  match list with
  | [] => ⟨true, st, []⟩
  | s :: rest =>
    let r := ReleaseServer env st (some s)
    let r2 := ReleaseServers env r.state rest
    ⟨r.res && r2.res, r2.state, r.events ++ r2.events⟩

/-- `HttpServerManager::GetHttpsServer` (lines 291–311): lookup returning the
entry only when it is TLS. -/
def GetHttpsServer (st : ManagerState) (address : SocketAddress) :
    OpResult (Option Server) :=
  match findServer st.servers address with
  | none => ⟨none, st, []⟩
  | some s =>
    if s.isTLS then ⟨some s, st, []⟩
    else ⟨none, st, [Event.errTypeConflict address]⟩

/-- Result of a batch-creation loop: overall success, the accumulated server
list, the registry state, and the emitted events. -/
structure LoopResult where
  ok : Bool
  acc : List Server
  state : ManagerState
  events : List Event
deriving DecidableEq, Repr

/-- Inner loop of `CreateServers` (lines 215–236): for each resolved address
invoke the creation function; on success run the callback (when present) and
accumulate the handle; on failure release every accumulated handle and stop. -/
def addrLoop (env : Env)
    (cfun : ManagerState → SocketAddress → OpResult (Option Server))
    (has_callback : Bool) (st : ManagerState)
    (address_list : List SocketAddress) (server_list : List Server) : LoopResult :=
  match address_list with
  | [] => ⟨true, server_list, st, []⟩
  | address :: rest =>
    let r := cfun st address
    match r.res with
    | some server =>
      let cbEvents :=
        if has_callback then [Event.callbackCall address server.id] else []
      let r2 := addrLoop env cfun has_callback r.state rest (server_list ++ [server])
      ⟨r2.ok, r2.acc, r2.state, r.events ++ cbEvents ++ r2.events⟩
    | none =>
      let rel := ReleaseServers env r.state server_list
      ⟨false, server_list, rel.state,
        r.events ++ [Event.errCreateFailed address] ++ rel.events⟩

/-- Outer loop of `CreateServers` (lines 202–237): resolve each bind host; a
resolution failure (the `catch` branch) returns false immediately — note it
does NOT release the accumulated servers; otherwise run the address loop. -/
def hostLoop (env : Env)
    (cfun : ManagerState → SocketAddress → OpResult (Option Server))
    (has_callback : Bool) (st : ManagerState)
    (server_ip_list : List String) (port : Nat) (server_list : List Server) :
    LoopResult :=
  match server_ip_list with
  | [] => ⟨true, server_list, st, []⟩
  | host :: rest =>
    match env.resolve host port with
    | none => ⟨false, server_list, st, [Event.errResolve host]⟩
    | some address_list =>
      let r := addrLoop env cfun has_callback st address_list server_list
      if r.ok then
        let r2 := hostLoop env cfun has_callback r.state rest port r.acc
        ⟨r2.ok, r2.acc, r2.state, r.events ++ r2.events⟩
      else
        ⟨false, r.acc, r.state, r.events⟩

/-- Batch-creation result: overall success, the caller's (possibly extended)
output list, the registry state, and the emitted events. -/
structure BatchResult where
  ok : Bool
  outList : List Server
  state : ManagerState
  events : List Event
deriving DecidableEq, Repr

/-- `CreateServers` template (lines 192–242): run the host loop starting from
an empty local accumulator; on full success append the accumulated handles to
the caller's output list, otherwise leave the output list untouched. -/
def CreateServers (env : Env) (st : ManagerState)
    (http_server_list : List Server) (server_ip_list : List String) (port : Nat)
    (cfun : ManagerState → SocketAddress → OpResult (Option Server))
    (has_callback : Bool) : BatchResult :=
  let r := hostLoop env cfun has_callback st server_ip_list port []
  if r.ok then
    ⟨true, http_server_list ++ r.acc, r.state, r.events⟩
  else
    ⟨false, http_server_list, r.state, r.events⟩

/-- `HttpServerManager::CreateHttpServers` (lines 244–259). -/
def CreateHttpServers (env : Env) (st : ManagerState)
    (http_server_list : List Server) (instance_name : String)
    (server_ip_list : List String) (port : Nat) (has_callback : Bool)
    (worker_count : Int) : BatchResult :=
  CreateServers env st http_server_list server_ip_list port
    (fun s address => CreateHttpServer env s instance_name address worker_count)
    has_callback

/-- `HttpServerManager::CreateHttpsServers` (lines 261–278). -/
def CreateHttpsServers (env : Env) (st : ManagerState)
    (https_server_list : List Server) (instance_name : String)
    (server_ip_list : List String) (port : Nat) (cert : Cert)
    (disable_http2_force : Bool) (has_callback : Bool) (worker_count : Int) :
    BatchResult :=
  CreateServers env st https_server_list server_ip_list port
    (fun s address =>
      CreateHttpsServerWithCert env s instance_name address cert
        disable_http2_force worker_count)
    has_callback

/-- Warning events (the `logtw` lines of the source). -/
def isWarning : Event → Bool
  | Event.warnWorkerMismatch _ _ => true
  | Event.warnHttp2Down _ => true
  | Event.warnHttp2Up _ => true
  | _ => false

/-- Start invocations (`HttpServer::Start` calls). -/
def isStartCall : Event → Bool
  | Event.startCall _ _ _ => true
  | _ => false

/-- The plain server handle built on the miss path of `CreateHttpServer`. -/
def newPlainServer (env : Env) (st : ManagerState) (instance_name : String)
    (address : SocketAddress) (worker_count : Int) : Server :=
  { id := st.nextId, isTLS := false, instanceName := instance_name,
    boundAddr := address, workerCount := resolveWorkerCount env worker_count,
    http2Enabled := env.http2Enabled, certs := [], running := true }

/-- The HTTP/2 flag resolved at the top of `CreateHttpsServer`. -/
def tlsHttp2Flag (env : Env) (disable_http2_force : Bool) : Bool :=
  if disable_http2_force = true then false else env.http2Enabled

/-- The TLS server handle built on the miss path of `CreateHttpsServer`. -/
def newTlsServer (env : Env) (st : ManagerState) (instance_name : String)
    (address : SocketAddress) (disable_http2_force : Bool) (worker_count : Int) :
    Server :=
  { id := st.nextId, isTLS := true, instanceName := instance_name,
    boundAddr := address, workerCount := resolveWorkerCount env worker_count,
    http2Enabled := tlsHttp2Flag env disable_http2_force, certs := [],
    running := true }

/-! Lookup and update lemmas about the association-list registry. -/

theorem findServer_append (l1 l2 : List (SocketAddress × Server))
    (a : SocketAddress) :
    findServer (l1 ++ l2) a =
      match findServer l1 a with
      | some s => some s
      | none => findServer l2 a := by
  induction l1 with
  | nil => simp [findServer]
  | cons p rest ih =>
    by_cases h : p.1 = a <;> simp [findServer, h, ih]

theorem findServer_append_of_none (l1 : List (SocketAddress × Server))
    (a : SocketAddress) (h : findServer l1 a = none)
    (l2 : List (SocketAddress × Server)) :
    findServer (l1 ++ l2) a = findServer l2 a := by
  rw [findServer_append, h]

theorem findServer_append_of_some (l1 : List (SocketAddress × Server))
    (a : SocketAddress) (s : Server) (h : findServer l1 a = some s)
    (l2 : List (SocketAddress × Server)) :
    findServer (l1 ++ l2) a = some s := by
  rw [findServer_append, h]

theorem findServer_single_of_ne (a b : SocketAddress) (s : Server)
    (h : ¬ a = b) : findServer [(a, s)] b = none := by
  simp [findServer, h]

theorem findServer_append_single_frame (l : List (SocketAddress × Server))
    (a b : SocketAddress) (s : Server) (h : b ≠ a) :
    findServer (l ++ [(a, s)]) b = findServer l b := by
  have h2 : ¬ a = b := fun hc => h hc.symm
  rw [findServer_append]
  cases hb : findServer l b <;> simp [findServer, h2]

theorem updateById_keys (l : List (SocketAddress × Server)) (sid : Nat)
    (srv : Server) :
    (updateById l sid srv).map Prod.fst = l.map Prod.fst := by
  induction l with
  | nil => rfl
  | cons p rest ih =>
    by_cases h : p.2.id = sid <;> simp only [updateById, List.map_cons] at ih ⊢ <;>
      simp [h, ih]

theorem findServer_updateById (l : List (SocketAddress × Server)) (sid : Nat)
    (srv : Server) (a : SocketAddress) :
    findServer (updateById l sid srv) a =
      (findServer l a).map fun s => if s.id = sid then srv else s := by
  induction l with
  | nil => simp [findServer, updateById]
  | cons p rest ih =>
    by_cases h : p.1 = a
    · by_cases h2 : p.2.id = sid <;> simp [findServer, updateById, h, h2]
    · by_cases h2 : p.2.id = sid <;>
        simp only [updateById, List.map_cons] at ih ⊢ <;>
        simp [findServer, h, h2, ih]

theorem updateById_of_ne (l : List (SocketAddress × Server)) (sid : Nat)
    (h : ∀ p ∈ l, p.2.id ≠ sid) (srv : Server) :
    updateById l sid srv = l := by
  induction l with
  | nil => rfl
  | cons p rest ih =>
    have hp := h p (List.mem_cons_self p rest)
    simp only [updateById, List.map_cons] at ih ⊢
    simp [hp, ih fun q hq => h q (List.mem_cons_of_mem p hq)]

theorem updateById_append (l1 l2 : List (SocketAddress × Server)) (sid : Nat)
    (srv : Server) :
    updateById (l1 ++ l2) sid srv = updateById l1 sid srv ++ updateById l2 sid srv := by
  simp [updateById]

/-! Equations for the two miss paths, in terms of the handle constructors. -/

theorem createHttpServer_miss_started (env : Env) (st : ManagerState)
    (instance_name : String) (address : SocketAddress) (worker_count : Int)
    (hf : findServer st.servers address = none)
    (hs : env.startOk address = true) :
    CreateHttpServer env st instance_name address worker_count =
      ⟨some (newPlainServer env st instance_name address worker_count),
        ⟨st.servers ++ [(address, newPlainServer env st instance_name address worker_count)],
          st.nextId + 1⟩,
        [Event.startCall address worker_count env.http2Enabled]⟩ := by
  simp [CreateHttpServer, newPlainServer, hf, hs]

theorem createHttpsServer_miss_started (env : Env) (st : ManagerState)
    (instance_name : String) (address : SocketAddress)
    (disable_http2_force : Bool) (worker_count : Int)
    (hf : findServer st.servers address = none)
    (hs : env.startOk address = true) :
    CreateHttpsServer env st instance_name address disable_http2_force worker_count =
      ⟨some (newTlsServer env st instance_name address disable_http2_force worker_count),
        ⟨st.servers ++
            [(address, newTlsServer env st instance_name address disable_http2_force worker_count)],
          st.nextId + 1⟩,
        [Event.startCall address worker_count (tlsHttp2Flag env disable_http2_force)]⟩ := by
  simp [CreateHttpsServer, newTlsServer, tlsHttp2Flag, hf, hs]

/-! Concrete fixtures used to witness the hypothesised theorems. -/

/-- Default witness environment: HTTP/2 enabled, every collaborator call
succeeds, no host resolves. -/
def envW : Env :=
  ⟨true, fun _ => true, fun _ => true, fun _ _ => true, fun _ _ => true,
    fun _ _ => none, 4⟩

/-- Environment where every `Start` fails. -/
def envStartFail : Env :=
  { envW with startOk := fun _ => false }

/-- Environment where certificate attachment fails. -/
def envCertFail : Env :=
  { envW with appendCertOk := fun _ _ => false }

/-- A concrete address used by the witnesses. -/
def addrW : SocketAddress := ⟨"127.0.0.1", 443⟩

/-- A registered TLS handle used by the witnesses. -/
def tlsW : Server := ⟨0, true, "w", addrW, 5, true, [], true⟩

/-- A registry state holding only `tlsW` at `addrW`. -/
def stTlsW : ManagerState := ⟨[(addrW, tlsW)], 1⟩

/-- The empty registry state. -/
def stEmpty : ManagerState := ⟨[], 0⟩

/-- C2: a `GetOrCreatePlain` (`CreateHttpServer`) request on an address whose
registry entry is a TLS listener returns null (the type-conflict error is
logged), and the registry state — the TLS entry and all other entries — is
left unmodified. -/
theorem C2_plain_on_tls_conflict (env : Env) (st : ManagerState)
    (instance_name : String) (address : SocketAddress) (worker_count : Int)
    (s : Server) (hfind : findServer st.servers address = some s)
    (htls : s.isTLS = true) :
    (CreateHttpServer env st instance_name address worker_count).res = none ∧
    (CreateHttpServer env st instance_name address worker_count).state = st ∧
    (CreateHttpServer env st instance_name address worker_count).events =
      [Event.errTypeConflict address] := by
  simp [CreateHttpServer, hfind, htls]

/-- Witness for C2 at a concrete registry holding one TLS entry. -/
theorem C2_plain_on_tls_conflict_witness :
    (CreateHttpServer envW stTlsW "w" addrW 4).res = none ∧
    (CreateHttpServer envW stTlsW "w" addrW 4).state = stTlsW ∧
    (CreateHttpServer envW stTlsW "w" addrW 4).events =
      [Event.errTypeConflict addrW] :=
  C2_plain_on_tls_conflict envW stTlsW "w" addrW 4 tlsW (by decide) (by decide)

/-- C8: whenever `CreateHttpsServer` reaches the miss path (so it attempts to
start a new listener), the protocol-upgrade flag it passes to `Start` equals
`moduleDefaultUpgrade AND NOT forceDisableUpgrade`. -/
theorem C8_http2_flag (env : Env) (st : ManagerState) (instance_name : String)
    (address : SocketAddress) (disable_http2_force : Bool) (worker_count : Int)
    (hfind : findServer st.servers address = none) :
    (CreateHttpsServer env st instance_name address disable_http2_force
        worker_count).events.head? =
      some (Event.startCall address worker_count
        (env.http2Enabled && !disable_http2_force)) := by
  by_cases hs : env.startOk address <;>
    cases disable_http2_force <;>
    simp [CreateHttpsServer, hfind, hs]

/-- Witness for C8 at a concrete empty registry, with the force flag set. -/
theorem C8_http2_flag_witness :
    (CreateHttpsServer envW stEmpty "w" addrW true 4).events.head? =
      some (Event.startCall addrW 4 (envW.http2Enabled && !true)) :=
  C8_http2_flag envW stEmpty "w" addrW true 4 (by decide)

/-- C9: `ReleaseServer` on a null handle returns false, stops nothing (no
events are emitted) and leaves the registry unchanged. -/
theorem C9_release_null (env : Env) (st : ManagerState) :
    ReleaseServer env st none = ⟨false, st, []⟩ :=
  rfl

/-- C10: the caller-supplied output list of `CreateServers` keeps its
pre-existing elements as a prefix, stays exactly as it was when the batch
fails, and on success is extended at the end by the handles the host loop
accumulated, in processing order. -/
theorem C10_output_list_frame (env : Env) (st : ManagerState)
    (pre : List Server) (server_ip_list : List String) (port : Nat)
    (cfun : ManagerState → SocketAddress → OpResult (Option Server))
    (has_callback : Bool) :
    (CreateServers env st pre server_ip_list port cfun has_callback).outList =
      (if (hostLoop env cfun has_callback st server_ip_list port []).ok = true then
        pre ++ (hostLoop env cfun has_callback st server_ip_list port []).acc
      else pre) ∧
    (CreateServers env st pre server_ip_list port cfun has_callback).outList.take
        pre.length = pre := by
  by_cases h : (hostLoop env cfun has_callback st server_ip_list port []).ok = true <;>
    simp [CreateServers, h, List.take_left]

/-- C5: `ReleaseServer` on a registered handle forwards the `Stop` result of
the underlying listener as its own result, removes no registry entry (the key
sequence of the map is unchanged), and a subsequent lookup at the handle's
address still finds the (now stopped) handle. -/
theorem C5_release_keeps_entry (env : Env) (st : ManagerState) (s : Server)
    (hfind : findServer st.servers s.boundAddr = some s) :
    (ReleaseServer env st (some s)).res = env.stopOk s.boundAddr ∧
    (ReleaseServer env st (some s)).state.servers.map Prod.fst =
      st.servers.map Prod.fst ∧
    findServer (ReleaseServer env st (some s)).state.servers s.boundAddr =
      some (stopServer s) := by
  refine ⟨rfl, ?_, ?_⟩
  · simp [ReleaseServer, updateById_keys]
  · simp [ReleaseServer, findServer_updateById, hfind]

/-- Witness for C5 at a concrete registry holding one TLS entry. -/
theorem C5_release_keeps_entry_witness :
    (ReleaseServer envW stTlsW (some tlsW)).res = envW.stopOk tlsW.boundAddr ∧
    (ReleaseServer envW stTlsW (some tlsW)).state.servers.map Prod.fst =
      stTlsW.servers.map Prod.fst ∧
    findServer (ReleaseServer envW stTlsW (some tlsW)).state.servers
        tlsW.boundAddr = some (stopServer tlsW) :=
  C5_release_keeps_entry envW stTlsW tlsW (by decide)

/-- C6: on an address with no existing entry, `CreateHttpServer` and then
`CreateHttpServer` again at the same address return the same handle, the
first call starts the listener exactly once, and the second call performs no
`Start` at all. -/
theorem C6_idempotent_reuse (env : Env) (st : ManagerState)
    (instance_name : String) (address : SocketAddress) (worker_count : Int)
    (hfind : findServer st.servers address = none)
    (hstart : env.startOk address = true) :
    (CreateHttpServer env st instance_name address worker_count).res.isSome = true ∧
    (CreateHttpServer env
        (CreateHttpServer env st instance_name address worker_count).state
        instance_name address worker_count).res =
      (CreateHttpServer env st instance_name address worker_count).res ∧
    (CreateHttpServer env st instance_name address worker_count).events.countP
      isStartCall = 1 ∧
    (CreateHttpServer env
        (CreateHttpServer env st instance_name address worker_count).state
        instance_name address worker_count).events.countP isStartCall = 0 := by
  have h1 := createHttpServer_miss_started env st instance_name address
    worker_count hfind hstart
  have hf2 : findServer
      (st.servers ++ [(address, newPlainServer env st instance_name address worker_count)])
      address = some (newPlainServer env st instance_name address worker_count) := by
    rw [findServer_append_of_none st.servers address hfind]
    simp [findServer]
  have h2 : CreateHttpServer env
      ⟨st.servers ++ [(address, newPlainServer env st instance_name address worker_count)],
        st.nextId + 1⟩
      instance_name address worker_count =
      ⟨some (newPlainServer env st instance_name address worker_count),
        ⟨st.servers ++ [(address, newPlainServer env st instance_name address worker_count)],
          st.nextId + 1⟩, []⟩ := by
    simp only [CreateHttpServer, hf2]
    by_cases hwc : worker_count = HTTP_SERVER_USE_DEFAULT_COUNT <;>
      simp [newPlainServer, GetPhysicalPort, resolveWorkerCount, hwc]
  rw [h1]
  rw [h2]
  simp [isStartCall]

/-- Witness for C6 at a concrete empty registry. -/
theorem C6_idempotent_reuse_witness :
    (CreateHttpServer envW stEmpty "w" addrW 4).res.isSome = true ∧
    (CreateHttpServer envW (CreateHttpServer envW stEmpty "w" addrW 4).state
        "w" addrW 4).res = (CreateHttpServer envW stEmpty "w" addrW 4).res ∧
    (CreateHttpServer envW stEmpty "w" addrW 4).events.countP isStartCall = 1 ∧
    (CreateHttpServer envW (CreateHttpServer envW stEmpty "w" addrW 4).state
        "w" addrW 4).events.countP isStartCall = 0 :=
  C6_idempotent_reuse envW stEmpty "w" addrW 4 (by decide) (by decide)

/-- C7: on an address with no existing entry, both creation paths insert a
registry entry exactly when the collaborator `Start` succeeds: on failure
they return null and leave the map unchanged, on success the address is
registered. -/
theorem C7_start_failure_no_insert (env : Env) (st : ManagerState)
    (instance_name : String) (address : SocketAddress) (worker_count : Int)
    (disable_http2_force : Bool)
    (hfind : findServer st.servers address = none) :
    (env.startOk address = false →
      (CreateHttpServer env st instance_name address worker_count).res = none ∧
      (CreateHttpServer env st instance_name address worker_count).state = st ∧
      (CreateHttpsServer env st instance_name address disable_http2_force
          worker_count).res = none ∧
      (CreateHttpsServer env st instance_name address disable_http2_force
          worker_count).state = st) ∧
    (env.startOk address = true →
      (findServer (CreateHttpServer env st instance_name address
          worker_count).state.servers address).isSome = true ∧
      (findServer (CreateHttpsServer env st instance_name address
          disable_http2_force worker_count).state.servers address).isSome = true) := by
  constructor
  · intro hs
    simp [CreateHttpServer, CreateHttpsServer, hfind, hs]
  · intro hs
    rw [createHttpServer_miss_started env st instance_name address worker_count
        hfind hs,
      createHttpsServer_miss_started env st instance_name address
        disable_http2_force worker_count hfind hs]
    simp [findServer_append_of_none st.servers address hfind, findServer]

/-- Witness for C7 at a concrete empty registry whose `Start` always fails. -/
theorem C7_start_failure_no_insert_witness :
    (CreateHttpServer envStartFail stEmpty "w" addrW 4).res = none ∧
    (CreateHttpServer envStartFail stEmpty "w" addrW 4).state = stEmpty ∧
    (CreateHttpsServer envStartFail stEmpty "w" addrW false 4).res = none ∧
    (CreateHttpsServer envStartFail stEmpty "w" addrW false 4).state = stEmpty :=
  (C7_start_failure_no_insert envStartFail stEmpty "w" addrW 4 false
    (by decide)).1 (by decide)

/-- C3 counterexample: on a fresh address, `CreateHttpsServer` with worker
count 5 and then 9 succeeds both times and returns the same handle whose
worker count is 5, but — contrary to the claim — the second call emits NO
warning: the TLS path never inspects the worker count. -/
theorem C3_counterexample :
    (CreateHttpsServer envW stEmpty "n" addrW false 5).res.isSome = true ∧
    (CreateHttpsServer envW
        (CreateHttpsServer envW stEmpty "n" addrW false 5).state
        "n" addrW false 9).res =
      (CreateHttpsServer envW stEmpty "n" addrW false 5).res ∧
    Option.map Server.workerCount
      (CreateHttpsServer envW stEmpty "n" addrW false 5).res = some 5 ∧
    (CreateHttpsServer envW
        (CreateHttpsServer envW stEmpty "n" addrW false 5).state
        "n" addrW false 9).events.any isWarning = false := by
  decide

/-- C3 amended: `GetOrCreateTLS` with worker count 5 then 9 on the same fresh
address succeeds both times and returns the same handle whose worker count is
5 (first successful creation wins), and the second call emits no warning —
the TLS path warns only on a protocol-upgrade mismatch, never on a
worker-count mismatch. -/
theorem C3_amended_first_wins_no_warning (env : Env) (st : ManagerState)
    (instance_name : String) (address : SocketAddress)
    (disable_http2_force : Bool)
    (hfind : findServer st.servers address = none)
    (hstart : env.startOk address = true) :
    (CreateHttpsServer env st instance_name address disable_http2_force 5).res.isSome
      = true ∧
    (CreateHttpsServer env
        (CreateHttpsServer env st instance_name address disable_http2_force 5).state
        instance_name address disable_http2_force 9).res =
      (CreateHttpsServer env st instance_name address disable_http2_force 5).res ∧
    Option.map Server.workerCount
      (CreateHttpsServer env st instance_name address disable_http2_force 5).res
      = some 5 ∧
    (CreateHttpsServer env
        (CreateHttpsServer env st instance_name address disable_http2_force 5).state
        instance_name address disable_http2_force 9).events.any isWarning
      = false := by
  have h1 := createHttpsServer_miss_started env st instance_name address
    disable_http2_force 5 hfind hstart
  have hf2 : findServer
      (st.servers ++
        [(address, newTlsServer env st instance_name address disable_http2_force 5)])
      address =
      some (newTlsServer env st instance_name address disable_http2_force 5) := by
    rw [findServer_append_of_none st.servers address hfind]
    simp [findServer]
  have h2 : CreateHttpsServer env
      ⟨st.servers ++
          [(address, newTlsServer env st instance_name address disable_http2_force 5)],
        st.nextId + 1⟩
      instance_name address disable_http2_force 9 =
      ⟨some (newTlsServer env st instance_name address disable_http2_force 5),
        ⟨st.servers ++
            [(address, newTlsServer env st instance_name address disable_http2_force 5)],
          st.nextId + 1⟩, []⟩ := by
    simp only [CreateHttpsServer, hf2]
    cases hforce : disable_http2_force <;> cases he : env.http2Enabled <;>
      simp [newTlsServer, tlsHttp2Flag, hforce, he]
  rw [h1]
  rw [h2]
  simp [newTlsServer, resolveWorkerCount, HTTP_SERVER_USE_DEFAULT_COUNT]

/-- Witness for the amended C3 at a concrete empty registry. -/
theorem C3_amended_first_wins_no_warning_witness :
    (CreateHttpsServer envW stEmpty "w" addrW true 5).res.isSome = true ∧
    (CreateHttpsServer envW (CreateHttpsServer envW stEmpty "w" addrW true 5).state
        "w" addrW true 9).res =
      (CreateHttpsServer envW stEmpty "w" addrW true 5).res ∧
    Option.map Server.workerCount
      (CreateHttpsServer envW stEmpty "w" addrW true 5).res = some 5 ∧
    (CreateHttpsServer envW (CreateHttpsServer envW stEmpty "w" addrW true 5).state
        "w" addrW true 9).events.any isWarning = false :=
  C3_amended_first_wins_no_warning envW stEmpty "w" addrW true (by decide)
    (by decide)

/-- C4: when the certificate-bearing `CreateHttpsServer` overload creates a
new listener and the certificate attachment then fails, the overall call
returns null while the freshly created listener stays registered at its
address (attachment failure rolls back nothing). -/
theorem C4_attach_failure_keeps_listener (env : Env) (st : ManagerState)
    (instance_name : String) (address : SocketAddress) (cert : Cert)
    (disable_http2_force : Bool) (worker_count : Int)
    (hfind : findServer st.servers address = none)
    (hstart : env.startOk address = true)
    (hattach : env.appendCertOk address cert = false) :
    (CreateHttpsServerWithCert env st instance_name address cert
        disable_http2_force worker_count).res = none ∧
    findServer (CreateHttpsServerWithCert env st instance_name address cert
        disable_http2_force worker_count).state.servers address =
      some (newTlsServer env st instance_name address disable_http2_force
        worker_count) := by
  have h1 := createHttpsServer_miss_started env st instance_name address
    disable_http2_force worker_count hfind hstart
  have hf2 : findServer
      (st.servers ++
        [(address,
          newTlsServer env st instance_name address disable_http2_force worker_count)])
      address =
      some (newTlsServer env st instance_name address disable_http2_force
        worker_count) := by
    rw [findServer_append_of_none st.servers address hfind]
    simp [findServer]
  have hb : (newTlsServer env st instance_name address disable_http2_force
      worker_count).boundAddr = address := rfl
  simp only [CreateHttpsServerWithCert, h1, hb, hattach]
  exact ⟨rfl, hf2⟩

/-- Witness for C4 at a concrete empty registry whose attachment fails. -/
theorem C4_attach_failure_keeps_listener_witness :
    (CreateHttpsServerWithCert envCertFail stEmpty "w" addrW 7 false 4).res
      = none ∧
    findServer (CreateHttpsServerWithCert envCertFail stEmpty "w" addrW 7
        false 4).state.servers addrW =
      some (newTlsServer envCertFail stEmpty "w" addrW false 4) :=
  C4_attach_failure_keeps_listener envCertFail stEmpty "w" addrW 7 false 4
    (by decide) (by decide) (by decide)

/-- Environment for the C1 counterexample: only the host "10.0.0.1"
resolves; every other collaborator call succeeds. -/
def envC1 : Env :=
  { envW with resolve := fun h p => if h = "10.0.0.1" then some [⟨h, p⟩] else none }

/-- C1 counterexample: with bind hosts "10.0.0.1" and "10.0.0.2" (port 8080),
where the second host fails to resolve, the batch returns failure but the
handle created for the first host is NOT released: no `Stop` is invoked and
its registry entry remains, still running — the `catch` branch of
`CreateServers` returns without calling `ReleaseServers`. -/
theorem C1_counterexample :
    (CreateHttpServers envC1 stEmpty [] "srv" ["10.0.0.1", "10.0.0.2"] 8080
        false 4).ok = false ∧
    findServer (CreateHttpServers envC1 stEmpty [] "srv"
        ["10.0.0.1", "10.0.0.2"] 8080 false 4).state.servers ⟨"10.0.0.1", 8080⟩ =
      some ⟨0, false, "srv", ⟨"10.0.0.1", 8080⟩, 4, true, [], true⟩ ∧
    Event.stopCall ⟨"10.0.0.1", 8080⟩ ∉
      (CreateHttpServers envC1 stEmpty [] "srv" ["10.0.0.1", "10.0.0.2"] 8080
        false 4).events := by
  decide

/-- C1 amended: the two failure modes of a batch differ.  When creating a
listener at a resolved address fails, the batch returns failure and every
handle accumulated so far in the batch is released via `Release` (its `Stop`
is invoked and it is left stopped), but its registry entry remains (stopped,
not removed), and entries at other addresses — in particular those created
before the batch — are untouched.  When resolving a bind host fails, the
batch returns failure immediately and the handles accumulated so far are NOT
released: no `Stop` is invoked and their entries remain live. -/
theorem C1_amended_rollback (env : Env) (st : ManagerState) (pre : List Server)
    (instance_name : String) (port : Nat) (worker_count : Int)
    (has_callback : Bool) (host1 host2 host3 : String) (a1 a2 : SocketAddress)
    (hres1 : env.resolve host1 port = some [a1])
    (hres2 : env.resolve host2 port = some [a2])
    (hres3 : env.resolve host3 port = none)
    (hf1 : findServer st.servers a1 = none)
    (hf2 : findServer st.servers a2 = none)
    (hne : a1 ≠ a2)
    (hs1 : env.startOk a1 = true)
    (hs2 : env.startOk a2 = false)
    (hid : ∀ p ∈ st.servers, p.2.id ≠ st.nextId) :
    ((CreateHttpServers env st pre instance_name [host1, host2] port
        has_callback worker_count).ok = false ∧
      (CreateHttpServers env st pre instance_name [host1, host2] port
        has_callback worker_count).outList = pre ∧
      findServer (CreateHttpServers env st pre instance_name [host1, host2]
          port has_callback worker_count).state.servers a1 =
        some (stopServer (newPlainServer env st instance_name a1 worker_count)) ∧
      Event.stopCall a1 ∈ (CreateHttpServers env st pre instance_name
        [host1, host2] port has_callback worker_count).events ∧
      (∀ b, b ≠ a1 → findServer (CreateHttpServers env st pre instance_name
          [host1, host2] port has_callback worker_count).state.servers b =
        findServer st.servers b)) ∧
    ((CreateHttpServers env st pre instance_name [host1, host3] port
        has_callback worker_count).ok = false ∧
      (CreateHttpServers env st pre instance_name [host1, host3] port
        has_callback worker_count).outList = pre ∧
      findServer (CreateHttpServers env st pre instance_name [host1, host3]
          port has_callback worker_count).state.servers a1 =
        some (newPlainServer env st instance_name a1 worker_count) ∧
      Event.stopCall a1 ∉ (CreateHttpServers env st pre instance_name
        [host1, host3] port has_callback worker_count).events) := by
  have h1 := createHttpServer_miss_started env st instance_name a1
    worker_count hf1 hs1
  have hfa2 : findServer
      (st.servers ++ [(a1, newPlainServer env st instance_name a1 worker_count)])
      a2 = none := by
    rw [findServer_append_of_none st.servers a2 hf2]
    exact findServer_single_of_ne a1 a2 _ hne
  have h2 : CreateHttpServer env
      ⟨st.servers ++ [(a1, newPlainServer env st instance_name a1 worker_count)],
        st.nextId + 1⟩
      instance_name a2 worker_count =
      ⟨none,
        ⟨st.servers ++ [(a1, newPlainServer env st instance_name a1 worker_count)],
          st.nextId + 1⟩,
        [Event.startCall a2 worker_count env.http2Enabled,
          Event.errStartFailure a2]⟩ := by
    simp [CreateHttpServer, hfa2, hs2]
  have hba : (newPlainServer env st instance_name a1 worker_count).boundAddr = a1 :=
    rfl
  have hidv : (newPlainServer env st instance_name a1 worker_count).id = st.nextId :=
    rfl
  have hupd : updateById
      (st.servers ++ [(a1, newPlainServer env st instance_name a1 worker_count)])
      st.nextId (stopServer (newPlainServer env st instance_name a1 worker_count)) =
      st.servers ++
        [(a1, stopServer (newPlainServer env st instance_name a1 worker_count))] := by
    rw [updateById_append, updateById_of_ne st.servers st.nextId hid]
    simp [updateById, hidv]
  have hrel : ReleaseServers env
      ⟨st.servers ++ [(a1, newPlainServer env st instance_name a1 worker_count)],
        st.nextId + 1⟩
      [newPlainServer env st instance_name a1 worker_count] =
      ⟨env.stopOk a1,
        ⟨st.servers ++
            [(a1, stopServer (newPlainServer env st instance_name a1 worker_count))],
          st.nextId + 1⟩,
        [Event.stopCall a1]⟩ := by
    simp [ReleaseServers, ReleaseServer, hba, hidv, hupd]
  have hfin1 : findServer
      (st.servers ++
        [(a1, stopServer (newPlainServer env st instance_name a1 worker_count))])
      a1 =
      some (stopServer (newPlainServer env st instance_name a1 worker_count)) := by
    rw [findServer_append_of_none st.servers a1 hf1]
    simp [findServer]
  have hfin2 : findServer
      (st.servers ++ [(a1, newPlainServer env st instance_name a1 worker_count)])
      a1 = some (newPlainServer env st instance_name a1 worker_count) := by
    rw [findServer_append_of_none st.servers a1 hf1]
    simp [findServer]
  constructor
  · refine ⟨?_, ?_, ?_, ?_, ?_⟩
    · simp [CreateHttpServers, CreateServers, hostLoop, addrLoop, hres1, hres2,
        h1, h2, hrel]
    · simp [CreateHttpServers, CreateServers, hostLoop, addrLoop, hres1, hres2,
        h1, h2, hrel]
    · simp [CreateHttpServers, CreateServers, hostLoop, addrLoop, hres1, hres2,
        h1, h2, hrel, hfin1]
    · cases has_callback <;>
        simp [CreateHttpServers, CreateServers, hostLoop, addrLoop, hres1,
          hres2, h1, h2, hrel]
    · intro b hb
      simp [CreateHttpServers, CreateServers, hostLoop, addrLoop, hres1, hres2,
        h1, h2, hrel,
        findServer_append_single_frame st.servers a1 b
          (stopServer (newPlainServer env st instance_name a1 worker_count)) hb]
  · refine ⟨?_, ?_, ?_, ?_⟩
    · simp [CreateHttpServers, CreateServers, hostLoop, addrLoop, hres1, hres3,
        h1]
    · simp [CreateHttpServers, CreateServers, hostLoop, addrLoop, hres1, hres3,
        h1]
    · simp [CreateHttpServers, CreateServers, hostLoop, addrLoop, hres1, hres3,
        h1, hfin2]
    · cases has_callback <;>
        simp [CreateHttpServers, CreateServers, hostLoop, addrLoop, hres1,
          hres3, h1]

/-- Environment for the C1 amended witness: the host "bad" fails to resolve,
every other host resolves to itself, and only the address at "10.0.0.1"
starts successfully. -/
def envC1W : Env :=
  { envW with
    resolve := fun h p => if h = "bad" then none else some [⟨h, p⟩],
    startOk := fun a => a.host == "10.0.0.1" }

/-- Witness for the amended C1 at a concrete empty registry. -/
theorem C1_amended_rollback_witness :
    (CreateHttpServers envC1W stEmpty [] "srv" ["10.0.0.1", "10.0.0.2"] 8080
        false 4).ok = false ∧
    findServer (CreateHttpServers envC1W stEmpty [] "srv"
        ["10.0.0.1", "10.0.0.2"] 8080 false 4).state.servers ⟨"10.0.0.1", 8080⟩ =
      some (stopServer (newPlainServer envC1W stEmpty "srv" ⟨"10.0.0.1", 8080⟩ 4)) ∧
    (CreateHttpServers envC1W stEmpty [] "srv" ["10.0.0.1", "bad"] 8080
        false 4).ok = false :=
  have h := C1_amended_rollback envC1W stEmpty [] "srv" 8080 4 false
    "10.0.0.1" "10.0.0.2" "bad" ⟨"10.0.0.1", 8080⟩ ⟨"10.0.0.2", 8080⟩
    (by decide) (by decide) (by decide) (by decide) (by decide) (by decide)
    (by decide) (by decide) (by intro p hp; simp [stEmpty] at hp)
  ⟨h.1.1, h.1.2.2.1, h.2.1⟩

end HttpSvr
